import Mathlib

/-!
Shallow embedding of the authentication orchestration core of
`cc-backend` (`internal/auth/auth.go`): the `User` identity value,
session decoding (`AuthViaSession`), the `Login` / `Auth` / `Logout`
request wrappers, and package initialization (`Init`).

External collaborators (the SQL store, the gorilla session store, the
concrete authenticators reached through the `Authenticator` interface)
are modelled as oracle fields of an environment record: the embedding
keeps the exact control flow of `auth.go` and takes the collaborators'
results as inputs.
-/

namespace CCBackend

/-- `AuthSource` is a Go `int`; `AuthViaLocalPassword = iota = 0`. -/
def AuthViaLocalPassword : Int := 0

/-- `AuthViaLDAP = 1` in the `AuthSource` enumeration. -/
def AuthViaLDAP : Int := 1

/-- `AuthViaToken = 2` in the `AuthSource` enumeration. -/
def AuthViaToken : Int := 2

/-- `AuthType` is a Go `int`; `AuthToken = iota = 0`. -/
def AuthToken : Int := 0

/-- `AuthSession = 1` in the `AuthType` enumeration. -/
def AuthSession : Int := 1

/-- The `User` struct of `auth.go`: the authenticated principal.
`expiration` (`time.Time`) is modelled as an integer timestamp. -/
structure User where
  username : String
  password : String := ""
  name : String := ""
  roles : List String
  authType : Int
  authSource : Int
  email : String := ""
  projects : List String
  expiration : Int := 0
deriving DecidableEq, Repr

/-- `User.HasProject`: linear scan over `u.Projects` returning true on
the first match. -/
def User.hasProject (u : User) (project : String) : Bool :=
  u.projects.any (fun p => p == project)

/-- A value stored in `session.Values` (a Go
`map[interface{}]interface{}`): in this program only `string` and
`[]string` values are ever stored. -/
inductive SessVal where
  | str (s : String)
  | strList (l : List String)
deriving DecidableEq, Repr

/-- The Go type assertion `val.(string)` with the `ok` flag discarded:
a non-string value yields the zero value `""`. -/
def SessVal.asString : SessVal → String
  | .str s => s
  | _ => ""

/-- The Go type assertion `val.([]string)` with the `ok` flag
discarded: a non-`[]string` value yields `nil` (the empty list). -/
def SessVal.asStringList : SessVal → List String
  | .strList l => l
  | _ => []

/-- `session.Values` as an association list with leftmost-key-wins
lookup, so assignment is modelled by prepending. -/
abbrev SessValues := List (String × SessVal)

/-- Map lookup `session.Values[k]` (comma-ok form). -/
def getVal (vs : SessValues) (k : String) : Option SessVal :=
  (vs.find? (fun p => p.1 == k)).map (fun p => p.2)

/-- Map assignment `session.Values[k] = v`. -/
def setVal (vs : SessValues) (k : String) (v : SessVal) : SessValues :=
  (k, v) :: vs

/-- A `*sessions.Session`: its `IsNew` flag, its `Options.MaxAge`
(seconds) and its `Values` map. -/
structure Session where
  isNew : Bool
  maxAge : Int
  values : SessValues
deriving DecidableEq, Repr

/-- A Go `error` value: either a message built with `errors.New` /
the session-store collaborator, or the sentinel `sql.ErrNoRows`. -/
inductive GoError where
  | msg (s : String)
  | sqlErrNoRows
deriving DecidableEq, Repr

/-- `err.Error()` as used by `http.Error(rw, err.Error(), ...)`. -/
def GoError.message : GoError → String
  | .msg s => s
  | .sqlErrNoRows => "sql: no rows in result set"

instance {ε α : Type} [DecidableEq ε] [DecidableEq α] :
    DecidableEq (Except ε α) := fun x y =>
  match x, y with
  | .error a, .error b => decidable_of_iff (a = b) (by simp)
  | .error _, .ok _ => Decidable.isFalse (by simp)
  | .ok _, .error _ => Decidable.isFalse (by simp)
  | .ok a, .ok b => decidable_of_iff (a = b) (by simp)

/-- `Authentication.AuthViaSession`, as a function of the result of
`auth.sessionStore.Get(r, "session")`.  Returns `.ok none` for a new
session, `.error _` on a store error or a missing key, and otherwise
the `User` reconstructed from the session values.  Note that the third
lookup reads the key `"projects"` again (auth.go line 114), exactly as
the source does, so the branch returning `No key roles in session` is
reachable only when `"projects"` is itself absent. -/
def authViaSession (sessionGet : Except GoError Session) :
    Except GoError (Option User) :=
  match sessionGet with
  | .error e => .error e
  | .ok session =>
    if session.isNew then .ok none
    else
      match getVal session.values "username" with
      | none => .error (.msg "No key username in session")
      | some vUsername =>
        match getVal session.values "projects" with
        | none => .error (.msg "No key projects in session")
        | some vProjects =>
          match getVal session.values "projects" with
          | none => .error (.msg "No key roles in session")
          | some vRoles =>
            .ok (some { username := vUsername.asString
                        roles := vRoles.asStringList
                        authType := AuthSession
                        authSource := -1
                        projects := vProjects.asStringList })

/-- The outcome of the `Auth` handler: the success continuation with a
user attached to the context, a direct `http.Error` response, or the
failure continuation. -/
inductive AuthOutcome where
  | success (u : User)
  | httpError (msg : String) (status : Nat)
  | failure (msg : String)
deriving DecidableEq, Repr

/-- `Authentication.Auth`: stage 1 is `AuthViaJWT` (an external
collaborator, given by its result `jwtUser`; its error return is never
consulted by the source); if it yields no user, stage 2 is
`AuthViaSession` on the session fetched for the request.  A session
error becomes `http.Error(..., 401)`; a user from either stage goes to
the success continuation; otherwise the failure continuation runs with
`unauthorized (please login first)`. -/
def authRun (jwtUser : Option User) (sessionGet : Except GoError Session) :
    AuthOutcome :=
  match jwtUser with
  | some u => .success u
  | none =>
    match authViaSession sessionGet with
    | .error e => .httpError e.message 401
    | .ok (some u) => .success u
    | .ok none => .failure "unauthorized (please login first)"

/-- One entry of `auth.authenticators`, seen through the
`Authenticator` interface: its `CanLogin` and `Login` methods as
functions of the candidate user (the response writer and request are
fixed for the one request being modelled). -/
structure AuthenticatorSpec where
  canLogin : Option User → Bool
  login : Option User → Except GoError User

/-- Placeholder used as the `List.getD` default when indexing the
registry in statements; it never handles any request. -/
def noopAuthenticator : AuthenticatorSpec :=
  { canLogin := fun _ => false, login := fun _ => .error (.msg "noop") }

/-- The outcome of the `Login` handler.  `failure err` is the call
`onfailure(rw, r, err)`; the Go `error` argument may be `nil`, hence
the `Option`. -/
inductive LoginOutcome where
  | success (u : User)
  | failure (err : Option GoError)
  | httpError (msg : String) (status : Nat)
deriving DecidableEq, Repr

/-- Observable effects of one `Login` request: the outcome, the
session passed to `sessionStore.Save` (if `Save` was called), the
arguments of `AddUser` calls, and the registry indices on which
`CanLogin` resp. `Login` were invoked, in call order. -/
structure LoginResult where
  outcome : LoginOutcome
  saveCalled : Option Session
  addUserCalled : List User
  canLoginCalls : List Nat
  loginCalls : List Nat
deriving DecidableEq, Repr

/-- The collaborators and configuration one `Login` request sees:
the form field `username`, the store lookup `auth.GetUser`, the result
of `sessionStore.New` (a fresh session carrying the store's default
`MaxAge`), the result of `sessionStore.Save`, the configured
`SessionMaxAge` in nanoseconds (`time.Duration`), and the registry. -/
structure LoginEnv where
  formUsername : String
  dbLookup : String → Except GoError User
  sessionNew : Except GoError Session
  saveErr : Option GoError
  sessionMaxAge : Int
  authenticators : List AuthenticatorSpec

/-- `int(d.Seconds())` for a `time.Duration` `d` in nanoseconds:
division by 10^9 truncated toward zero. -/
def durationSeconds (d : Int) : Int := d.tdiv 1000000000

/-- The candidate-resolution prologue of `Login`: `err` starts as
`no authenticator applied`; when a username was supplied it is
overwritten by the result of `auth.GetUser` (`nil` on success), and
`dbUser` stays `nil` unless the lookup succeeded. -/
def loginCandidate (env : LoginEnv) : Option User × Option GoError :=
  if env.formUsername = "" then
    (none, some (.msg "no authenticator applied"))
  else
    match env.dbLookup env.formUsername with
    | .ok u => (some u, none)
    | .error e => (none, some e)

/-- The body `Login` runs once it has committed to the authenticator
at registry index `i`: its `Login` error aborts via the failure
continuation; otherwise session creation, the max-age override, the
population of the three session keys, `Save`, `AddUser` for a `nil`
candidate, and the success continuation follow the source line by
line. -/
def loginChosen (env : LoginEnv) (dbUser : Option User) (i : Nat)
    (a : AuthenticatorSpec) : LoginResult :=
  match a.login dbUser with
  | .error e =>
    { outcome := .failure (some e), saveCalled := none,
      addUserCalled := [], canLoginCalls := [i], loginCalls := [i] }
  | .ok user =>
    match env.sessionNew with
    | .error e =>
      { outcome := .httpError e.message 500, saveCalled := none,
        addUserCalled := [], canLoginCalls := [i], loginCalls := [i] }
    | .ok s0 =>
      let s1 := if env.sessionMaxAge ≠ 0
                then { s0 with maxAge := durationSeconds env.sessionMaxAge }
                else s0
      let vs :=
        setVal (setVal (setVal s1.values
          "username" (.str user.username))
          "projects" (.strList user.projects))
          "roles" (.strList user.roles)
      let s2 := { s1 with values := vs }
      match env.saveErr with
      | some e =>
        { outcome := .httpError e.message 500, saveCalled := some s2,
          addUserCalled := [], canLoginCalls := [i], loginCalls := [i] }
      | none =>
        { outcome := .success user, saveCalled := some s2,
          addUserCalled := if dbUser.isNone then [user] else [],
          canLoginCalls := [i], loginCalls := [i] }

/-- The registry loop of `Login`, carrying the index `i` of the head
of the remaining list.  Skipped authenticators only contribute a
`CanLogin` call; the first willing one is committed to via
`loginChosen`. -/
def loginLoop (env : LoginEnv) (dbUser : Option User)
    (fallErr : Option GoError) : Nat → List AuthenticatorSpec → LoginResult
  | _, [] =>
    { outcome := .failure fallErr, saveCalled := none, addUserCalled := [],
      canLoginCalls := [], loginCalls := [] }
  | i, a :: rest =>
    if a.canLogin dbUser then
      loginChosen env dbUser i a
    else
      let r := loginLoop env dbUser fallErr (i + 1) rest
      { r with canLoginCalls := i :: r.canLoginCalls }

/-- `Authentication.Login` on one request: resolve the candidate, then
run the registry loop; an empty or unwilling registry falls through to
`onfailure(rw, r, err)` with whatever `err` holds at that point. -/
def loginRun (env : LoginEnv) : LoginResult :=
  let c := loginCandidate env
  loginLoop env c.1 c.2 0 env.authenticators

/-- The outcome of the `Logout` handler. -/
inductive LogoutOutcome where
  | success
  | httpError (msg : String) (status : Nat)
deriving DecidableEq, Repr

/-- Observable effects of one `Logout` request. -/
structure LogoutResult where
  outcome : LogoutOutcome
  saveCalled : Option Session
deriving DecidableEq, Repr

/-- `Authentication.Logout`: fetch the session; a store error is a
500; a new session skips persistence; otherwise `MaxAge` is set to
`-1` and the session saved, a save error being a 500.  The success
continuation runs afterwards in both non-error paths. -/
def logoutRun (sessionGet : Except GoError Session)
    (saveErr : Option GoError) : LogoutResult :=
  match sessionGet with
  | .error e => { outcome := .httpError e.message 500, saveCalled := none }
  | .ok session =>
    if session.isNew then
      { outcome := .success, saveCalled := none }
    else
      let s := { session with maxAge := -1 }
      match saveErr with
      | some e => { outcome := .httpError e.message 500, saveCalled := some s }
      | none => { outcome := .success, saveCalled := some s }

/-- Tags for the authenticators `Init` may place in
`auth.authenticators`, in the order the source appends them. -/
inductive AuthKind where
  | ldap
  | jwtSession
  | jwtCookieSession
  | localAuth
deriving DecidableEq, Repr

/-- The collaborator results `Init` consumes: the session-key setup
(random generation or base64 decoding), the `Init` result of each
authenticator, and whether an `"ldap"` configuration block is
present.  Each `Init` result is `none` on success. -/
structure InitEnv where
  keySetup : Option GoError
  jwtInit : Option GoError
  ldapConfigured : Bool
  ldapInit : Option GoError
  jwtSessionInit : Option GoError
  jwtCookieSessionInit : Option GoError
  localInit : Option GoError

/-- The `Init` function of `auth.go`, returning the registry built on
success.  `JwtAuth.Init`, a configured `LdapAuth.Init` and
`LocalAuth.Init` failures abort; a `jwtSessionAuth.Init` failure is
only logged and the authenticator skipped.  Faithful to the source
(auth.go line 175), the guard before appending `jwtCookieSessionAuth`
calls `jwtSessionAuth.Init` again — `jwtCookieSessionInit` is never
consulted. -/
def initAuth (env : InitEnv) : Except GoError (List AuthKind) :=
  match env.keySetup with
  | some e => .error e
  | none =>
    match env.jwtInit with
    | some e => .error e
    | none =>
      match (if env.ldapConfigured then
               match env.ldapInit with
               | some e => Except.error e
               | none => Except.ok [AuthKind.ldap]
             else Except.ok []) with
      | .error e => .error e
      | .ok regs1 =>
        let regs2 := match env.jwtSessionInit with
          | some _ => regs1
          | none => regs1 ++ [AuthKind.jwtSession]
        let regs3 := match env.jwtSessionInit with
          | some _ => regs2
          | none => regs2 ++ [AuthKind.jwtCookieSession]
        match env.localInit with
        | some e => .error e
        | none => .ok (regs3 ++ [AuthKind.localAuth])

/-- The context key `ContextUserKey = "user"`. -/
def contextUserKey : String := "user"

/-- A request context as `GetUser` sees it: the value attached under
each context key; in this program the only value ever attached is a
`*User` (via `context.WithValue(r.Context(), ContextUserKey, user)`). -/
structure GoContext where
  lookup : String → Option User

/-- `GetUser`: `ctx.Value(ContextUserKey)`, `nil` propagated, the
attached user returned otherwise. -/
def getUser (ctx : GoContext) : Option User :=
  match ctx.lookup contextUserKey with
  | none => none
  | some u => some u

/-! Concrete inputs used to evaluate the handlers at specific
requests. -/

/-- A user whose roles and projects differ as sets. -/
def aliceUser : User :=
  { username := "alice", roles := ["admin"], projects := ["p1"],
    authType := AuthSession, authSource := AuthViaLDAP }

/-- A login request for `alice`: the store holds a candidate, one
authenticator accepts, session creation and save succeed,
`SessionMaxAge` is zero. -/
def envRoundTrip : LoginEnv :=
  { formUsername := "alice"
    dbLookup := fun _ => .ok aliceUser
    sessionNew := .ok { isNew := true, maxAge := 3600, values := [] }
    saveErr := none
    sessionMaxAge := 0
    authenticators :=
      [{ canLogin := fun _ => true, login := fun _ => .ok aliceUser }] }

/-- The session `Login` persists for `envRoundTrip`. -/
def savedRoundTrip : Session :=
  { isNew := true, maxAge := 3600,
    values := [("roles", .strList ["admin"]),
               ("projects", .strList ["p1"]),
               ("username", .str "alice")] }

/-- The user `AuthViaSession` reconstructs from that session once it
is fetched again (a fetched persisted session is no longer new). -/
def decodedRoundTrip : User :=
  { username := "alice", roles := ["p1"], projects := ["p1"],
    authType := AuthSession, authSource := -1 }

/-- A non-new session that carries `username` and `projects` but no
`roles` key. -/
def sessMissingRoles : Session :=
  { isNew := false, maxAge := 0,
    values := [("username", .str "bob"),
               ("projects", .strList ["p2"])] }

/-- The user the session stage produces for `sessMissingRoles`. -/
def decodedMissingRoles : User :=
  { username := "bob", roles := ["p2"], projects := ["p2"],
    authType := AuthSession, authSource := -1 }

/-- A login request with a supplied username, a successful store
lookup, and an empty registry. -/
def envEmptyRegistry : LoginEnv :=
  { formUsername := "bob"
    dbLookup := fun _ => .ok aliceUser
    sessionNew := .ok { isNew := true, maxAge := 0, values := [] }
    saveErr := none
    sessionMaxAge := 0
    authenticators := [] }

/-- Initialization inputs where every collaborator succeeds except
`jwtCookieSessionAuth.Init`, which would fail; no LDAP block. -/
def envCookieInit : InitEnv :=
  { keySetup := none, jwtInit := none, ldapConfigured := false,
    ldapInit := none, jwtSessionInit := none,
    jwtCookieSessionInit := some (.msg "cookie auth unusable"),
    localInit := none }

/-- C1: the claim says the persisted session decodes back to an
identity with the original `username`, `roles` and `projects`
(order-insensitive).  The code stores `roles` correctly but decodes
them from the `projects` key (auth.go line 114): for `alice` with
roles `[admin]` and projects `[p1]`, the decoded identity has roles
`[p1]` — `admin` is lost, so the round-trip fails on `roles`. -/
theorem login_roundtrip_roles_from_projects :
    (loginRun envRoundTrip).outcome = .success aliceUser ∧
    (loginRun envRoundTrip).saveCalled = some savedRoundTrip ∧
    getVal savedRoundTrip.values "roles" = some (.strList ["admin"]) ∧
    authViaSession (.ok { savedRoundTrip with isNew := false })
      = .ok (some decodedRoundTrip) ∧
    decodedRoundTrip.username = aliceUser.username ∧
    "admin" ∈ aliceUser.roles ∧ "admin" ∉ decodedRoundTrip.roles := by
  decide

/-- C2: the claim says a non-new session lacking the `roles` key (with
`username` present) makes the session stage fail with the error naming
`roles`, surfaced by `Auth` as an authentication failure.  Because the
`roles` presence check re-reads the `projects` key (auth.go line 114),
the code instead decodes such a session successfully — taking the
roles from the projects value — and `Auth` invokes the success
continuation. -/
theorem session_missing_roles_accepted :
    getVal sessMissingRoles.values "roles" = none ∧
    getVal sessMissingRoles.values "username" = some (.str "bob") ∧
    sessMissingRoles.isNew = false ∧
    authViaSession (.ok sessMissingRoles) = .ok (some decodedMissingRoles) ∧
    authRun none (.ok sessMissingRoles) = .success decodedMissingRoles := by
  decide

/-- C3: the claim says an empty registry always sends the
`no authenticator applied` error to the failure continuation.  The
candidate-lookup prologue overwrites the `err` variable holding that
error: with a supplied username whose store lookup succeeds, `err`
becomes `nil`, and the fall-through calls `onfailure(rw, r, nil)`. -/
theorem login_empty_registry_nil_error :
    (loginRun envEmptyRegistry).outcome = .failure none ∧
    (LoginOutcome.failure none
      ≠ .failure (some (.msg "no authenticator applied"))) := by
  decide

/-- C5: the claim says a failing `Init` of the dedicated-cookie token
authenticator causes it to be omitted from the registry.  The guard
before appending it re-tests `jwtSessionAuth.Init` (auth.go line 175),
never its own `Init`: with a succeeding session-token authenticator
and a failing cookie one, initialization succeeds and the cookie
authenticator is still placed in the registry. -/
theorem init_cookie_auth_added_despite_failed_init :
    envCookieInit.jwtCookieSessionInit = some (.msg "cookie auth unusable") ∧
    initAuth envCookieInit
      = .ok [AuthKind.jwtSession, AuthKind.jwtCookieSession,
             AuthKind.localAuth] := by
  decide

/-! Helper lemmas about the `Login` loop. -/

theorem loginChosen_canLoginCalls (env : LoginEnv) (dbUser : Option User)
    (i : Nat) (a : AuthenticatorSpec) :
    (loginChosen env dbUser i a).canLoginCalls = [i] := by
  unfold loginChosen
  repeat' split
  all_goals rfl

theorem loginChosen_loginCalls (env : LoginEnv) (dbUser : Option User)
    (i : Nat) (a : AuthenticatorSpec) :
    (loginChosen env dbUser i a).loginCalls = [i] := by
  unfold loginChosen
  repeat' split
  all_goals rfl

theorem loginChosen_error (env : LoginEnv) (dbUser : Option User)
    (i : Nat) (a : AuthenticatorSpec) (e : GoError)
    (he : a.login dbUser = .error e) :
    (loginChosen env dbUser i a).outcome = .failure (some e) := by
  unfold loginChosen
  rw [he]

theorem loginLoop_found (env : LoginEnv) (dbUser : Option User)
    (fallErr : Option GoError) (k : Nat) (a : AuthenticatorSpec)
    (rest : List AuthenticatorSpec) (hc : a.canLogin dbUser = true) :
    loginLoop env dbUser fallErr k (a :: rest) = loginChosen env dbUser k a := by
  unfold loginLoop
  rw [hc]
  rfl

theorem loginLoop_skip (env : LoginEnv) (dbUser : Option User)
    (fallErr : Option GoError) (k : Nat) (a : AuthenticatorSpec)
    (rest : List AuthenticatorSpec) (hc : a.canLogin dbUser = false) :
    loginLoop env dbUser fallErr k (a :: rest)
      = { loginLoop env dbUser fallErr (k + 1) rest with
          canLoginCalls :=
            k :: (loginLoop env dbUser fallErr (k + 1) rest).canLoginCalls } := by
  simp [loginLoop, hc]

theorem loginChosen_success_addUser (env : LoginEnv) (dbUser : Option User)
    (i : Nat) (a : AuthenticatorSpec) (u : User)
    (h : (loginChosen env dbUser i a).outcome = .success u) :
    (loginChosen env dbUser i a).addUserCalled
      = if dbUser.isNone then [u] else [] := by
  cases hl : a.login dbUser with
  | error e => simp [loginChosen, hl] at h
  | ok user =>
    cases hn : env.sessionNew with
    | error e => simp [loginChosen, hl, hn] at h
    | ok s0 =>
      cases hs : env.saveErr with
      | some e => simp [loginChosen, hl, hn, hs] at h
      | none =>
        simp only [loginChosen, hl, hn, hs] at h ⊢
        simp at h
        subst h
        rfl

theorem loginChosen_success_maxAge (env : LoginEnv) (dbUser : Option User)
    (i : Nat) (a : AuthenticatorSpec) (u : User) (s0 : Session)
    (hnew : env.sessionNew = .ok s0)
    (h : (loginChosen env dbUser i a).outcome = .success u) :
    ∃ s, (loginChosen env dbUser i a).saveCalled = some s ∧
      s.maxAge = if env.sessionMaxAge = 0 then s0.maxAge
                 else durationSeconds env.sessionMaxAge := by
  cases hl : a.login dbUser with
  | error e => simp [loginChosen, hl] at h
  | ok user =>
    cases hs : env.saveErr with
    | some e => simp [loginChosen, hl, hnew, hs] at h
    | none =>
      simp only [loginChosen, hl, hnew, hs]
      refine ⟨_, rfl, ?_⟩
      by_cases hm : env.sessionMaxAge = 0 <;> simp [hm]

theorem loginLoop_success_addUser (env : LoginEnv) (dbUser : Option User)
    (fallErr : Option GoError) (l : List AuthenticatorSpec) :
    ∀ (k : Nat) (u : User),
      (loginLoop env dbUser fallErr k l).outcome = .success u →
      (loginLoop env dbUser fallErr k l).addUserCalled
        = if dbUser.isNone then [u] else [] := by
  induction l with
  | nil => intro k u h; simp [loginLoop] at h
  | cons a rest ih =>
    intro k u h
    cases hc : a.canLogin dbUser with
    | true =>
      rw [loginLoop_found env dbUser fallErr k a rest hc] at h ⊢
      exact loginChosen_success_addUser env dbUser k a u h
    | false =>
      rw [loginLoop_skip env dbUser fallErr k a rest hc] at h ⊢
      exact ih (k + 1) u h

theorem loginLoop_success_maxAge (env : LoginEnv) (dbUser : Option User)
    (fallErr : Option GoError) (l : List AuthenticatorSpec) (s0 : Session)
    (hnew : env.sessionNew = .ok s0) :
    ∀ (k : Nat) (u : User),
      (loginLoop env dbUser fallErr k l).outcome = .success u →
      ∃ s, (loginLoop env dbUser fallErr k l).saveCalled = some s ∧
        s.maxAge = if env.sessionMaxAge = 0 then s0.maxAge
                   else durationSeconds env.sessionMaxAge := by
  induction l with
  | nil => intro k u h; simp [loginLoop] at h
  | cons a rest ih =>
    intro k u h
    cases hc : a.canLogin dbUser with
    | true =>
      rw [loginLoop_found env dbUser fallErr k a rest hc] at h ⊢
      exact loginChosen_success_maxAge env dbUser k a u s0 hnew h
    | false =>
      rw [loginLoop_skip env dbUser fallErr k a rest hc] at h ⊢
      exact ih (k + 1) u h

theorem loginLoop_first_match (env : LoginEnv) (dbUser : Option User)
    (fallErr : Option GoError) (l : List AuthenticatorSpec) :
    ∀ (k i : Nat), i < l.length →
      (∀ j, j < i →
        (l.getD j noopAuthenticator).canLogin dbUser = false) →
      (l.getD i noopAuthenticator).canLogin dbUser = true →
      (loginLoop env dbUser fallErr k l).canLoginCalls
        = List.range' k (i + 1) ∧
      (loginLoop env dbUser fallErr k l).loginCalls = [k + i] ∧
      ∀ e, (l.getD i noopAuthenticator).login dbUser = .error e →
        (loginLoop env dbUser fallErr k l).outcome = .failure (some e) := by
  induction l with
  | nil => intro k i hi; simp at hi
  | cons a rest ih =>
    intro k i hi hbef hcan
    cases i with
    | zero =>
      have hc : a.canLogin dbUser = true := by simpa using hcan
      rw [loginLoop_found env dbUser fallErr k a rest hc]
      refine ⟨?_, ?_, ?_⟩
      · rw [loginChosen_canLoginCalls, List.range'_one]
      · rw [loginChosen_loginCalls]; simp
      · intro e he
        exact loginChosen_error env dbUser k a e (by simpa using he)
    | succ n =>
      have hc : a.canLogin dbUser = false := by
        simpa using hbef 0 (Nat.succ_pos n)
      rw [loginLoop_skip env dbUser fallErr k a rest hc]
      have hrest := ih (k + 1) n (by rw [List.length_cons] at hi; omega)
        (fun j hj => by simpa using hbef (j + 1) (Nat.succ_lt_succ hj))
        (by simpa using hcan)
      refine ⟨?_, ?_, ?_⟩
      · show k :: (loginLoop env dbUser fallErr (k + 1) rest).canLoginCalls = _
        rw [hrest.1]
        simp [List.range'_succ]
      · show (loginLoop env dbUser fallErr (k + 1) rest).loginCalls = _
        rw [hrest.2.1]
        congr 1
        omega
      · intro e he
        show (loginLoop env dbUser fallErr (k + 1) rest).outcome = _
        exact hrest.2.2 e (by simpa using he)

/-- C4: `Login` evaluates `CanLogin` along the registry in order; the
first authenticator whose `CanLogin` holds is the only one whose
`Login` is called, no later authenticator is consulted, and if that
`Login` fails the failure continuation receives exactly that error. -/
theorem login_first_authenticator_wins (env : LoginEnv) (i : Nat)
    (hi : i < env.authenticators.length)
    (hbef : ∀ j, j < i →
      (env.authenticators.getD j noopAuthenticator).canLogin
        (loginCandidate env).1 = false)
    (hcan : (env.authenticators.getD i noopAuthenticator).canLogin
        (loginCandidate env).1 = true) :
    (loginRun env).canLoginCalls = List.range (i + 1) ∧
    (loginRun env).loginCalls = [i] ∧
    ∀ e, (env.authenticators.getD i noopAuthenticator).login
          (loginCandidate env).1 = .error e →
      (loginRun env).outcome = .failure (some e) := by
  have h := loginLoop_first_match env (loginCandidate env).1
    (loginCandidate env).2 env.authenticators 0 i hi hbef hcan
  simp only [loginRun]
  refine ⟨?_, ?_, ?_⟩
  · rw [h.1, List.range_eq_range']
  · simpa using h.2.1
  · intro e he
    exact h.2.2 e he

/-- A registry of three authenticators: the first declines, the second
accepts and fails, the third would accept and succeed. -/
def envChain : LoginEnv :=
  { formUsername := ""
    dbLookup := fun _ => .error .sqlErrNoRows
    sessionNew := .ok { isNew := true, maxAge := 0, values := [] }
    saveErr := none
    sessionMaxAge := 0
    authenticators :=
      [{ canLogin := fun _ => false, login := fun _ => .ok aliceUser },
       { canLogin := fun _ => true,
         login := fun _ => .error (.msg "bad password") },
       { canLogin := fun _ => true, login := fun _ => .ok aliceUser }] }

theorem login_first_authenticator_wins_witness :
    (loginRun envChain).canLoginCalls = List.range 2 ∧
    (loginRun envChain).loginCalls = [1] ∧
    (loginRun envChain).outcome = .failure (some (.msg "bad password")) := by
  have h := login_first_authenticator_wins envChain 1 (by decide)
    (by decide) (by decide)
  exact ⟨h.1, h.2.1, h.2.2 (.msg "bad password") (by decide)⟩

/-- C6: with a successfully fetched session, `Logout` skips the save
entirely when the session is new yet still reaches the success
continuation, and whenever any needed save succeeds the success
continuation runs regardless of whether a session existed. -/
theorem logout_new_skips_save_still_success (sg : Except GoError Session)
    (s : Session) (saveErr : Option GoError) (h : sg = .ok s) :
    (s.isNew = true →
      logoutRun sg saveErr = { outcome := .success, saveCalled := none }) ∧
    (saveErr = none → (logoutRun sg saveErr).outcome = .success) := by
  subst h
  constructor
  · intro hn
    simp [logoutRun, hn]
  · intro hs
    subst hs
    by_cases hn : s.isNew <;> simp [logoutRun, hn]

/-- A session in the new/empty state. -/
def sessNewMark : Session := { isNew := true, maxAge := 0, values := [] }

/-- An existing (non-new) session. -/
def sessOldMark : Session := { isNew := false, maxAge := 100, values := [] }

theorem logout_new_skips_save_still_success_witness :
    logoutRun (.ok sessNewMark) (some (.msg "disk full"))
      = { outcome := .success, saveCalled := none } ∧
    (logoutRun (.ok sessOldMark) none).outcome = .success :=
  ⟨(logout_new_skips_save_still_success (.ok sessNewMark) sessNewMark
      (some (.msg "disk full")) rfl).1 rfl,
   (logout_new_skips_save_still_success (.ok sessOldMark) sessOldMark
      none rfl).2 rfl⟩

/-- C7: on a successful login, the persisted session's max-age equals
the session store's default (the one `sessionStore.New` put on the
fresh session) when `SessionMaxAge` is zero, and exactly the
configured duration in seconds otherwise. -/
theorem login_session_maxage (env : LoginEnv) (u : User) (s0 : Session)
    (hnew : env.sessionNew = .ok s0)
    (h : (loginRun env).outcome = .success u) :
    ∃ s, (loginRun env).saveCalled = some s ∧
      s.maxAge = if env.sessionMaxAge = 0 then s0.maxAge
                 else durationSeconds env.sessionMaxAge := by
  simp only [loginRun] at h ⊢
  exact loginLoop_success_maxAge env _ _ _ s0 hnew 0 u h

/-- A login request with `SessionMaxAge` set to five seconds. -/
def envMaxAge : LoginEnv :=
  { formUsername := "alice"
    dbLookup := fun _ => .ok aliceUser
    sessionNew := .ok { isNew := true, maxAge := 3600, values := [] }
    saveErr := none
    sessionMaxAge := 5000000000
    authenticators :=
      [{ canLogin := fun _ => true, login := fun _ => .ok aliceUser }] }

theorem login_session_maxage_witness :
    ∃ s, (loginRun envMaxAge).saveCalled = some s ∧ s.maxAge = 5 := by
  obtain ⟨s, hs, hm⟩ := login_session_maxage envMaxAge aliceUser
    { isNew := true, maxAge := 3600, values := [] } (by decide) (by decide)
  exact ⟨s, hs, by rw [hm]; decide⟩

/-- C8: a successful login registers the returned identity in the
persisted store with exactly one `AddUser` call when no candidate was
resolved before credential verification, and performs no such write
when a candidate existed. -/
theorem login_adduser_first_time_only (env : LoginEnv) (u : User)
    (h : (loginRun env).outcome = .success u) :
    ((loginCandidate env).1 = none → (loginRun env).addUserCalled = [u]) ∧
    (∀ c, (loginCandidate env).1 = some c →
      (loginRun env).addUserCalled = []) := by
  simp only [loginRun] at h ⊢
  have hadd := loginLoop_success_addUser env (loginCandidate env).1
    (loginCandidate env).2 env.authenticators 0 u h
  constructor
  · intro hn
    rw [hadd, hn]
    rfl
  · intro c hc
    rw [hadd, hc]
    rfl

/-- A first-time login: no username form field, so no candidate. -/
def envFirstTime : LoginEnv :=
  { formUsername := ""
    dbLookup := fun _ => .error .sqlErrNoRows
    sessionNew := .ok { isNew := true, maxAge := 0, values := [] }
    saveErr := none
    sessionMaxAge := 0
    authenticators :=
      [{ canLogin := fun _ => true, login := fun _ => .ok aliceUser }] }

theorem login_adduser_first_time_only_witness :
    (loginRun envFirstTime).addUserCalled = [aliceUser] :=
  (login_adduser_first_time_only envFirstTime aliceUser (by decide)).1
    (by decide)

/-- C9: every identity the session stage reconstructs carries
`AuthType = AuthSession` and the `AuthSource` sentinel `-1`, distinct
from `AuthViaLocalPassword`, `AuthViaLDAP` and `AuthViaToken`. -/
theorem session_identity_sentinel_source (sg : Except GoError Session)
    (u : User) (h : authViaSession sg = .ok (some u)) :
    u.authType = AuthSession ∧ u.authSource = -1 ∧
    u.authSource ≠ AuthViaLocalPassword ∧ u.authSource ≠ AuthViaLDAP ∧
    u.authSource ≠ AuthViaToken := by
  unfold authViaSession at h
  repeat' split at h
  all_goals simp at h
  subst h
  refine ⟨rfl, rfl, ?_, ?_, ?_⟩
  · show (-1 : Int) ≠ AuthViaLocalPassword
    decide
  · show (-1 : Int) ≠ AuthViaLDAP
    decide
  · show (-1 : Int) ≠ AuthViaToken
    decide

/-- A decodable non-new session for `carol`. -/
def sessCarol : Session :=
  { isNew := false, maxAge := 0,
    values := [("username", .str "carol"), ("projects", .strList ["p3"]),
               ("roles", .strList ["support"])] }

/-- The identity the session stage produces for `sessCarol`. -/
def carolUser : User :=
  { username := "carol", roles := ["p3"], projects := ["p3"],
    authType := AuthSession, authSource := -1 }

theorem session_identity_sentinel_source_witness :
    carolUser.authType = AuthSession ∧ carolUser.authSource = -1 ∧
    carolUser.authSource ≠ AuthViaLocalPassword ∧
    carolUser.authSource ≠ AuthViaLDAP ∧
    carolUser.authSource ≠ AuthViaToken :=
  session_identity_sentinel_source (.ok sessCarol) carolUser (by decide)

/-- C10: `GetUser` yields `nil` on a context carrying no value under
the user key, and the attached identity exactly when one is there. -/
theorem getuser_absent_or_attached (ctx : GoContext) :
    (ctx.lookup contextUserKey = none → getUser ctx = none) ∧
    ∀ u, ctx.lookup contextUserKey = some u → getUser ctx = some u := by
  constructor
  · intro h
    simp [getUser, h]
  · intro u h
    simp [getUser, h]

/-- A context with nothing attached. -/
def ctxEmpty : GoContext := { lookup := fun _ => none }

/-- A context with `aliceUser` attached under the user key. -/
def ctxAlice : GoContext :=
  { lookup := fun k => if k = "user" then some aliceUser else none }

theorem getuser_absent_or_attached_witness :
    getUser ctxEmpty = none ∧ getUser ctxAlice = some aliceUser :=
  ⟨(getuser_absent_or_attached ctxEmpty).1 rfl,
   (getuser_absent_or_attached ctxAlice).2 aliceUser (by decide)⟩

end CCBackend
